import Mathlib

/-!
Verification development for the soya server-side-rendering framework.

The definitions below are a shallow embedding of the repository's
request-handling core:

* `src/soya/src/data/redux/connect.js` — the consumer wrapper produced by
  `connect()`: its `subscribe`/`unsubscribe` slot bookkeeping and its
  `componentWillReceiveProps` re-subscription policy.
* `Application` (the server orchestrator): `handle`, `handleError`,
  `_ensureError`, `_handleRenderResult` (with its `storeResolve` and
  `handlePromiseError` closures), `createServer`, `start`, and the
  `runMiddleware` chain executor created inside `createServer`.

JavaScript objects used as string-keyed dictionaries are modelled as
association lists; JavaScript closures stored for later invocation are
modelled by the data they close over.
-/

namespace Soya

/-! ## Subscription model (connect.js + ReduxStore surface)

`ReduxStore` itself is not part of the included sources; its subscription
surface is modelled from the spec (§4.1): `subscribe` registers a new
subscription owned by the consumer and returns a handle whose `unsubscribe`
removes exactly that subscription; `unsubscribe(consumer)` removes every
subscription owned by the consumer.

We model a single consumer wrapper interacting with its store.  Each store
subscription gets a fresh numeric id; the `unsubscribe` closure returned by
the store is represented by the id of the subscription it would remove.
-/

/-- One active subscription inside the ReduxStore, owned by the consumer.
Modelled from the spec: a subscription has an owning consumer, a segment
identifier, a query and a result-slot (state) name. -/
structure StoreSub where
  id : Nat
  segmentId : String
  query : String
  stateName : String
  deriving Repr, DecidableEq

/-- The mutable state relevant to `connect.js` subscription bookkeeping:

* `soyaUnsubscribe` models `this.__soyaUnsubscribe`, the wrapper's map from
  state (slot) name to a stored unsubscribe closure (represented by the id
  of the store subscription that closure would remove).
* `unsubscribeExpando` models the properties assigned onto the
  `unsubscribe` *method object* by the statement
  `this.unsubscribe[segmentId] = storeRef.unsubscribe;` in `subscribe()`.
  In JavaScript this writes a property on the bound function, keyed by
  segment id — it does not touch `this.__soyaUnsubscribe`.
* `storeSubs` models the set of active subscriptions the ReduxStore holds
  for this consumer (spec-modelled store side).
* `nextId` provides fresh subscription ids. -/
structure ConsumerState where
  soyaUnsubscribe : List (String × Nat)
  unsubscribeExpando : List (String × Nat)
  storeSubs : List StoreSub
  nextId : Nat
  deriving Repr, DecidableEq

/-- A freshly constructed wrapper: `this.__soyaUnsubscribe = {}` and no
store subscriptions exist yet. -/
def ConsumerState.init : ConsumerState :=
  { soyaUnsubscribe := [], unsubscribeExpando := [], storeSubs := [], nextId := 0 }

/-- Set a key in an association list, replacing an existing binding
(JavaScript `obj[key] = value`). -/
def assocSet (l : List (String × Nat)) (k : String) (v : Nat) : List (String × Nat) :=
  if l.any (fun p => p.1 = k) then l.map (fun p => if p.1 = k then (k, v) else p)
  else l ++ [(k, v)]

/-- Remove a key from an association list (JavaScript `delete obj[key]`). -/
def assocDelete (l : List (String × Nat)) (k : String) : List (String × Nat) :=
  l.filter (fun p => p.1 ≠ k)

/-- Modelled from the spec: the unsubscribe closure returned by
`ReduxStore.subscribe` removes exactly the subscription it was created
for.  Invoking the closure identified by `subId` deletes that store
subscription. -/
def storeUnsubscribeOne (subs : List StoreSub) (subId : Nat) : List StoreSub :=
  subs.filter (fun s => s.id ≠ subId)

/-- Function `unsubscribe(stateName)` of connect.js (lines 214–220): if
`this.__soyaUnsubscribe[stateName]` holds a function, call it (removing the
corresponding store subscription) and delete the map entry; otherwise do
nothing. -/
def ConsumerState.unsubscribeSlot (st : ConsumerState) (stateName : String) : ConsumerState :=
  match st.soyaUnsubscribe.lookup stateName with
  | some subId =>
      { st with
        storeSubs := storeUnsubscribeOne st.storeSubs subId
        soyaUnsubscribe := assocDelete st.soyaUnsubscribe stateName }
  | none => st

/-- Function `subscribe(segmentId, query, stateName, hydration)` of connect.js
(lines 194–209):

1. `this.unsubscribe(stateName)` — unsubscribe if already subscribed;
2. `this.getReduxStore().subscribe(...)` — the store registers a fresh
   subscription and returns a `storeRef` (spec-modelled store side);
3. `this.unsubscribe[segmentId] = storeRef.unsubscribe;` — the returned
   unsubscribe closure is assigned to a property of the `unsubscribe`
   method object keyed by *segment* id (`unsubscribeExpando`), exactly as
   the source line reads; `this.__soyaUnsubscribe` is not written.

The trailing `setState` calls only affect rendering state and are not part
of the subscription bookkeeping. -/
def ConsumerState.subscribe (st : ConsumerState) (segmentId query stateName : String) :
    ConsumerState :=
  let st := st.unsubscribeSlot stateName
  let newSub : StoreSub :=
    { id := st.nextId, segmentId := segmentId, query := query, stateName := stateName }
  { st with
    storeSubs := st.storeSubs ++ [newSub]
    nextId := st.nextId + 1
    unsubscribeExpando := assocSet st.unsubscribeExpando segmentId newSub.id }

/-- Number of active store subscriptions of this consumer whose result slot
is `stateName`. -/
def ConsumerState.activeForSlot (st : ConsumerState) (stateName : String) : Nat :=
  (st.storeSubs.filter (fun s => s.stateName = stateName)).length

/-! ## componentWillReceiveProps (connect.js lines 292–305)

Props are modelled as association lists from prop name to a value identity
(a `Nat`): two entries are `===`-equal in JavaScript exactly when their
identities coincide.  The wrapper's injected props (`getActionCreator`,
`context`, `getReduxStore`, `getConfig`) are functions bound once in the
constructor, so they carry fixed identities; `result` is the wrapper's
React state. -/

/-- A JavaScript props object: prop name ↦ value identity. -/
def Props : Type := List (String × Nat)

/-- Modelled from the spec: `isEqualShallow` lives in
`src/soya/src/data/redux/helper.js`, which is not among the included
sources; the spec describes it as shallow comparison of the previous and
next prop sets.  Two props objects are shallow-equal when they bind exactly
the same keys to `===`-equal values. -/
def isEqualShallow (p q : List (String × Nat)) : Bool :=
  p.all (fun kv => q.lookup kv.1 = some kv.2) && q.all (fun kv => p.lookup kv.1 = some kv.2)

/-- Predicate `defaultShouldSubcriptionsUpdate` (connect.js lines 60–63): update
subscriptions exactly when the two prop sets are not shallow-equal. -/
def defaultShouldSubcriptionsUpdate (prevProps nextProps : List (String × Nat)) : Bool :=
  !isEqualShallow prevProps nextProps

/-- Fixed value identities of the functions the wrapper binds once in its
constructor and injects into every connected props object. -/
def getActionCreatorId : Nat := 1000001
/-- Identity of `this.__soyaContext`. -/
def contextId : Nat := 1000002
/-- Identity of `this.__soyaGetReduxStore`. -/
def getReduxStoreId : Nat := 1000003
/-- Identity of `this.__soyaGetConfig`. -/
def getConfigId : Nat := 1000004

/-- Method `connectedProps(props)` (connect.js lines 235–242): copy the given
props and set `getActionCreator`, `context`, `result` (the wrapper's React
state) and the two getters. -/
def connectedProps (props : List (String × Nat)) (reactState : Nat) : List (String × Nat) :=
  let p := assocSet props "getActionCreator" getActionCreatorId
  let p := assocSet p "context" contextId
  let p := assocSet p "result" reactState
  let p := assocSet p "getReduxStore" getReduxStoreId
  assocSet p "getConfig" getConfigId

/-- Modelled from the spec (§4.1): `ReduxStore.unsubscribe(consumer)`
removes every subscription owned by the consumer; the wrapper-side maps are
not touched by this store-side call. -/
def ConsumerState.storeUnsubscribeAll (st : ConsumerState) : ConsumerState :=
  { st with storeSubs := [] }

/-- Lifecycle hook `componentWillReceiveProps(nextProps)` (connect.js lines 292–305) with
the default subscription-update predicate: compute the connected versions
of the current and next props, and if `shouldSubscriptionsUpdate` reports
they differ, remove every store subscription owned by this consumer
(`this.getReduxStore().unsubscribe(this)`) and re-run the component's
`subscribeQueries` declaration with the next connected props; otherwise do
nothing. `subscribeQueries` is the component-supplied declaration function,
abstracted as a function from the connected props to the subscribe calls it
performs on the wrapper state. -/
def componentWillReceiveProps
    (subscribeQueries : List (String × Nat) → ConsumerState → ConsumerState)
    (st : ConsumerState) (curProps nextProps : List (String × Nat)) (reactState : Nat) :
    ConsumerState :=
  let cp := connectedProps curProps reactState
  let ncp := connectedProps nextProps reactState
  if defaultShouldSubcriptionsUpdate cp ncp then
    subscribeQueries ncp st.storeUnsubscribeAll
  else st

/-! ## Error model (Application.handleError, Application._ensureError) -/

/-- A JavaScript value with which the store's `hydrate()` promise can
reject: an `Error` instance, a string, or any other value (carried by its
string coercion, as produced by `'...' + error`). -/
inductive JSValue where
  | jsError (message : String)
  | jsString (s : String)
  | jsOther (coerced : String)
  deriving Repr, DecidableEq

/-- A JavaScript `Error` object, identified by its message. -/
structure JSError where
  message : String
  deriving Repr, DecidableEq

/-- Method `Application._ensureError(error)` (part_000 lines 409–413): an `Error`
instance passes through unchanged; a string becomes `new Error(string)`;
anything else is wrapped in an `Error` with a descriptive message ending in
the value's string coercion. -/
def ensureError : JSValue → JSError
  | JSValue.jsError m => { message := m }
  | JSValue.jsString s => { message := s }
  | JSValue.jsOther c =>
      { message := "Error when resolving store promise! Unable to convert reject arg: " ++ c }

/-- A call made on the injected `ErrorHandler` collaborator. -/
inductive ErrorSink where
  | responseNotSentError (message : String)
  | responseSentError (message : String)
  deriving Repr, DecidableEq

/-- The transport response visible to the orchestrator: status line, header
map (later `setHeader` calls overwrite earlier ones per key), body,
whether headers have been flushed, and the record of `ErrorHandler` calls
made for this request. -/
structure Response where
  statusCode : Nat
  statusMessage : String
  headers : List (String × String)
  body : Option String
  headersSent : Bool
  errorCalls : List ErrorSink
  deriving Repr, DecidableEq

/-- A fresh per-request response: nothing written, nothing flushed. -/
def Response.fresh : Response :=
  { statusCode := 200, statusMessage := "OK", headers := [], body := none,
    headersSent := false, errorCalls := [] }

/-- Method `response.setHeader(key, value)`: replace the existing header of
that name, or append a new one.  (Node keeps one value per header name; the
header map is a dictionary, so replacing in place and appending at the end
are indistinguishable through `getHeader`.) -/
def setHeader : List (String × String) → String → String → List (String × String)
  | [], k, v => [(k, v)]
  | p :: rest, k, v => if p.1 = k then (k, v) :: rest else p :: setHeader rest k v

/-- Method `Application.handleError(error, request, response)` (part_000 lines
396–403): if `response.headersSent`, report through
`responseSentError`, otherwise through `responseNotSentError`. -/
def handleError (e : JSError) (resp : Response) : Response :=
  if resp.headersSent then
    { resp with errorCalls := resp.errorCalls ++ [ErrorSink.responseSentError e.message] }
  else
    { resp with errorCalls := resp.errorCalls ++ [ErrorSink.responseNotSentError e.message] }

/-! ## Request dispatch (Application.handle, part_000 lines 288–309) -/

/-- An incoming HTTP request, abstracted to what the dispatcher consumes. -/
structure HttpRequest where
  url : String
  deriving Repr, DecidableEq

/-- The router's result: `{pageName, routeArgs}` plus the component name
used in error messages. -/
structure RouteResult where
  pageName : String
  componentName : String
  routeArgs : List (String × String)
  deriving Repr, DecidableEq

/-- What `Application.handle` establishes before delegating to the page's
`render`: the routed page name and its route arguments. -/
structure PageRender where
  pageName : String
  routeArgs : List (String × String)
  deriving Repr, DecidableEq

/-- Method `Application.handle(request, response)` (part_000 lines 288–309) up to
the point where control passes to `page.render`:

* `this._router.route(httpRequest)` returning `null` throws
  `Error('Unable to route request, router returned null')`;
* a routed page name absent from `this._pageClasses` throws
  `Error('Unable to route request, page <name> doesn't exist')`;
* otherwise the page is instantiated and rendering begins.

`pageClasses` is the registry built at startup, keyed by page name. -/
def handle (router : HttpRequest → Option RouteResult) (pageClasses : List (String × Nat))
    (req : HttpRequest) : Except String PageRender :=
  match router req with
  | none => Except.error "Unable to route request, router returned null"
  | some routeResult =>
    match pageClasses.lookup routeResult.pageName with
    | none =>
        Except.error ("Unable to route request, page " ++ routeResult.pageName ++ " doesn't exist")
    | some _ => Except.ok { pageName := routeResult.pageName, routeArgs := routeResult.routeArgs }

/-- The per-request domain error boundary (part_000 lines 264–266) wrapped
around `handle`: a synchronous throw out of `handle` is caught by the
domain's `error` listener, which calls `this.handleError(error, request,
response)`.  Returns the response (recording any `ErrorHandler` calls) and
the page-render handoff when no error occurred. -/
def dispatchWithBoundary (router : HttpRequest → Option RouteResult)
    (pageClasses : List (String × Nat)) (req : HttpRequest) (resp : Response) :
    Response × Option PageRender :=
  match handle router pageClasses req with
  | Except.error msg => (handleError { message := msg } resp, none)
  | Except.ok pr => (resp, some pr)

/-! ## Render/hydration coordinator (Application._handleRenderResult,
part_000 lines 320–389)

The coordinator's control flow is straight-line with one asynchronous
suspension (`store.hydrate()`).  We record its observable actions as an
event trace alongside the response it produces. -/

/-- A store's state snapshot as the renderer sees it: still loading, or
hydrated with its data. -/
inductive SegmentState where
  | loading
  | ready (data : String)
  deriving Repr, DecidableEq

/-- The store as the coordinator consumes it:
`_shouldRenderBeforeServerHydration()` and the outcome of `hydrate()` —
either a rejection value, or success leaving the store's state at the
given data (what `_getState()` returns once hydration has resolved;
before `hydrate()` resolves the store is still `SegmentState.loading`). -/
structure Store where
  shouldRenderBeforeServerHydration : Bool
  hydrateResult : Except JSValue String
  deriving Repr

/-- Observable actions of the coordinator, in execution order. -/
inductive Event where
  | startRender
  | endRender
  | discoveryRender
  | hydrateCalled
  | hydrateResolved
  | stateRead (s : SegmentState)
  | finalRender (s : Option SegmentState)
  | errorHandled (message : String)
  | responseEnd
  deriving Repr, DecidableEq

/-- Per-page dependency metadata from the compile result (opaque here). -/
structure PageDep where
  name : String
  deriving Repr, DecidableEq

/-- The `RenderResult` handed to `_handleRenderResult`: status line, the
page's own header collection, and the content renderer — a function of the
state snapshot it is given (route args, client config and page deps are
fixed for the request). -/
structure RenderResult where
  httpStatusCode : Nat
  httpStatusMessage : String
  httpHeaders : List (String × String)
  render : Option SegmentState → String

/-- The `storeResolve` closure (part_000 lines 350–386): read the state
snapshot when a store exists (`null` otherwise), render the final content
between `_startRender`/`_endRender`, set the status line, set
`Content-Length` to the UTF-8 byte length of the rendered body and
`Content-Type` to `text/html;charset=UTF-8`, then apply the render
result's own headers in mapping order, add `Set-Cookie` when the cookie
jar produced values, and end the response with the body. -/
def storeResolve (snapshot? : Option SegmentState) (rr : RenderResult)
    (cookieValues : List String) (resp : Response) : List Event × Response :=
  let stateEvents : List Event :=
    match snapshot? with
    | some s => [Event.stateRead s, Event.startRender]
    | none => []
  let htmlResult := rr.render snapshot?
  let endEvents : List Event :=
    match snapshot? with
    | some _ => [Event.endRender]
    | none => []
  let resp := { resp with
    statusCode := rr.httpStatusCode
    statusMessage := rr.httpStatusMessage }
  let resp := { resp with
    headers := setHeader resp.headers "Content-Length" (toString htmlResult.utf8ByteSize) }
  let resp := { resp with
    headers := setHeader resp.headers "Content-Type" "text/html;charset=UTF-8" }
  let resp := { resp with
    headers := rr.httpHeaders.foldl (fun hs (kv : String × String) => setHeader hs kv.1 kv.2) resp.headers }
  let resp :=
    if cookieValues.length > 0 then
      { resp with headers := setHeader resp.headers "Set-Cookie" (String.intercalate ", " cookieValues) }
    else resp
  let resp := { resp with body := some htmlResult, headersSent := true }
  (stateEvents ++ [Event.finalRender snapshot?] ++ endEvents ++ [Event.responseEnd], resp)

/-- The `handlePromiseError` closure (part_000 lines 344–348): coerce the
rejection value through `_ensureError` and hand it to `handleError`. -/
def handlePromiseError (v : JSValue) (resp : Response) : List Event × Response :=
  (([Event.errorHandled (ensureError v).message]), handleError (ensureError v) resp)

/-- Method `Application._handleRenderResult` (part_000 lines 320–389):

* a page name missing from the compile result's dependency map throws;
* when a store exists and requests a pre-hydration render pass, run the
  discovery render (its output is discarded) between
  `_startRender`/`_endRender`, synchronously, then call `store.hydrate()`;
* without a store the promise is already resolved (`Promise.resolve(null)`)
  and `hydrate` is never called;
* `promise.then(storeResolve).catch(handlePromiseError)`: on resolution run
  `storeResolve` (with the hydrated snapshot when a store exists), on
  rejection run `handlePromiseError` — never both. -/
def handleRenderResult (pageDep? : Option PageDep) (store? : Option Store)
    (rr : RenderResult) (componentName : String) (cookieValues : List String)
    (resp : Response) : Except String (List Event × Response) :=
  match pageDep? with
  | none =>
      Except.error
        ("Unable to render page server side, dependencies unknown for entry point: " ++ componentName)
  | some _ =>
    match store? with
    | none =>
        -- promise = Promise.resolve(null); storeResolve runs with a null state.
        Except.ok (storeResolve none rr cookieValues resp)
    | some store =>
        let discTrace : List Event :=
          if store.shouldRenderBeforeServerHydration then
            [Event.startRender, Event.discoveryRender, Event.endRender]
          else []
        match store.hydrateResult with
        | Except.error v =>
            let (t, r) := handlePromiseError v resp
            Except.ok (discTrace ++ [Event.hydrateCalled] ++ t, r)
        | Except.ok d =>
            let (t, r) := storeResolve (some (SegmentState.ready d)) rr cookieValues resp
            Except.ok (discTrace ++ [Event.hydrateCalled, Event.hydrateResolved] ++ t, r)

/-! ## Middleware chain executor (part_000 lines 267–277) and
Application.start (lines 214–233) -/

/-- A middleware handler.  It receives `(request, response, proceed)`;
its observable decision, for a given request, is whether it invokes
`proceed` (passing control onward) or not (halting the chain, having
written the response itself).  `id` identifies the handler so the
invocation order can be observed. -/
structure Middleware where
  id : Nat
  proceeds : HttpRequest → Bool

/-- The `runMiddleware` closure created per request inside `createServer`
(part_000 lines 267–277):

```
var index = 0;
var runMiddleware = () => {
  var middleware = this._middlewares[index++];
  if (!middleware) return;
  middleware(request, response, runMiddleware);
};
runMiddleware();
```

The shared mutable `index` makes each `proceed` call fetch the next list
element; fetching past the end yields `undefined` and the function simply
returns.  `runMiddleware ms req index` returns the ids of the handlers
invoked from position `index` on. -/
def runMiddleware (ms : List Middleware) (req : HttpRequest) (index : Nat) : List Nat :=
  if hlt : index < ms.length then
    let mw := ms.get ⟨index, hlt⟩
    mw.id :: (if mw.proceeds req then runMiddleware ms req (index + 1) else [])
  else []
termination_by ms.length - index
decreasing_by simp_wf; omega

/-- Method `Application.start` (part_000 lines 214–233): both branches set
`this._middlewares` to the compiler-provided list, then append the
framework's own `handle` as the last middleware
(`this._middlewares.push(this.handle.bind(this))`). -/
def startMiddlewares (compilerMiddlewares : List Middleware) (soyaHandle : Middleware) :
    List Middleware :=
  compilerMiddlewares ++ [soyaHandle]

/-! ## createServer idempotence (part_000 lines 244–252) -/

/-- The application state `createServer` consults and updates: the
`_serverCreated` flag, plus a count of HTTP servers actually created and
set listening (for observation). -/
structure AppServerState where
  serverCreated : Bool
  serversStarted : Nat
  deriving Repr, DecidableEq

/-- Application state after the constructor: `this._serverCreated = false`
(part_000 line 148), no server listening. -/
def AppServerState.init : AppServerState :=
  { serverCreated := false, serversStarted := 0 }

/-- Method `Application.createServer()` (part_000 lines 244–252): if
`this._serverCreated` is already set, return immediately; otherwise set the
flag and create the HTTP server (counted in `serversStarted`). -/
def createServer (st : AppServerState) : AppServerState :=
  if st.serverCreated then st
  else { serverCreated := true, serversStarted := st.serversStarted + 1 }

/-! ## Concrete sample data used to evaluate the theorems -/

/-- A sample render result with no page-supplied headers. -/
def sampleRenderResult : RenderResult :=
  { httpStatusCode := 200, httpStatusMessage := "OK", httpHeaders := [],
    render := fun _ => "<html>hi</html>" }

/-- A render result whose page-supplied header collection itself carries a
`Content-Length` entry. -/
def clashRenderResult : RenderResult :=
  { httpStatusCode := 200, httpStatusMessage := "OK",
    httpHeaders := [("Content-Length", "999")],
    render := fun _ => "hi" }

/-- A sample request. -/
def sampleReq : HttpRequest := { url := "/path" }

/-- A middleware that always calls `proceed`. -/
def mwProceeds : Middleware := { id := 1, proceeds := fun _ => true }

/-- A middleware that never calls `proceed`. -/
def mwHalts : Middleware := { id := 2, proceeds := fun _ => false }

/-- A sample `subscribeQueries` declaration: one subscribe call. -/
def sampleSubscribeQueries : List (String × Nat) → ConsumerState → ConsumerState :=
  fun _ st => st.subscribe "seg" "q" "slot"

/-- A consumer wrapper state holding one live subscription. -/
def sampleConsumer : ConsumerState := ConsumerState.init.subscribe "s1" "q1" "n1"

end Soya

namespace Soya

/-! ## Theorems -/

/-- C1: the claim says that after any number of `subscribe` calls to one
slot name, at most one active subscription exists for that (consumer,
slot) pair, because each `subscribe` call first unsubscribes the previous
subscription stored under the same slot name.  The code contradicts this:
`subscribe` stores the returned unsubscribe closure on
`this.unsubscribe[segmentId]` (a property of the method object, keyed by
segment id) instead of `this.__soyaUnsubscribe[stateName]`, so the
`this.unsubscribe(stateName)` call at the top of `subscribe` always finds
`this.__soyaUnsubscribe[stateName]` empty and removes nothing.  Two
`subscribe` calls to slot `"slot"` on a fresh wrapper leave two active
store subscriptions for that slot, and the wrapper's
`__soyaUnsubscribe` map stays empty throughout. -/
theorem subscribe_twice_leaks_listener :
    ((ConsumerState.init.subscribe "seg" "q" "slot").subscribe "seg" "q" "slot").activeForSlot
        "slot" = 2
      ∧ ((ConsumerState.init.subscribe "seg" "q" "slot").subscribe "seg" "q" "slot").soyaUnsubscribe
        = [] := by
  constructor <;> rfl

/-- C9: `createServer` is idempotent — a second call on any state is a
no-op, and for every `n ≥ 1`, after `n` calls starting from the freshly
constructed application exactly one HTTP server has been created, with
`_serverCreated` set. -/
theorem createServer_idempotent :
    (∀ st : AppServerState, createServer (createServer st) = createServer st)
      ∧ ∀ n : Nat, 1 ≤ n →
          (createServer^[n] AppServerState.init).serversStarted = 1
            ∧ (createServer^[n] AppServerState.init).serverCreated = true := by
  have hfix : ∀ st : AppServerState, st.serverCreated = true → createServer st = st := by
    intro st h
    simp [createServer, h]
  constructor
  · intro st
    by_cases h : st.serverCreated
    · rw [hfix st h, hfix st h]
    · have : createServer st = { serverCreated := true, serversStarted := st.serversStarted + 1 } := by
        simp [createServer, h]
      rw [this, hfix _ rfl]
  · intro n hn
    obtain ⟨m, rfl⟩ : ∃ m, n = m + 1 := ⟨n - 1, by omega⟩
    have h1 : createServer AppServerState.init
        = { serverCreated := true, serversStarted := 1 } := by
      simp [createServer, AppServerState.init]
    have hiter : ∀ k : Nat,
        createServer^[k] ({ serverCreated := true, serversStarted := 1 } : AppServerState)
          = { serverCreated := true, serversStarted := 1 } := by
      intro k
      induction k with
      | zero => rfl
      | succ k ih => rw [Function.iterate_succ_apply, hfix _ rfl, ih]
    rw [Function.iterate_succ_apply, h1, hiter]
    exact ⟨rfl, rfl⟩

/-- C9 witness: three calls from the initial state leave exactly one
server. -/
theorem createServer_idempotent_witness :
    (createServer^[3] AppServerState.init).serversStarted = 1 :=
  (createServer_idempotent.2 3 (by decide)).1

/-- C10: invoking `proceed` when the index is already past the end of the
middleware list is a safe no-op — `runMiddleware` invokes nothing and
returns. -/
theorem runMiddleware_past_end (ms : List Middleware) (req : HttpRequest) (i : Nat)
    (h : ms.length ≤ i) : runMiddleware ms req i = [] := by
  rw [runMiddleware]
  simp [Nat.not_lt.mpr h]

/-- C10 witness: a one-element chain invoked at index 3 does nothing. -/
theorem runMiddleware_past_end_witness : runMiddleware [mwProceeds] sampleReq 3 = [] :=
  runMiddleware_past_end [mwProceeds] sampleReq 3 (by simp)

/-- C2: when the router returns `null`, or the routed page name has no
registered page class, `handle` throws a synchronous `Error`; the domain
error boundary catches it, and on a response whose headers have not been
sent and on which no error handler has yet run, the boundary invokes
`responseNotSentError` exactly once and never `responseSentError` (and no
page render is started). -/
theorem fatal_routing_error_not_sent (router : HttpRequest → Option RouteResult)
    (pageClasses : List (String × Nat)) (req : HttpRequest) (resp : Response)
    (hsent : resp.headersSent = false) (hcalls : resp.errorCalls = [])
    (hfatal : router req = none
      ∨ ∃ r, router req = some r ∧ pageClasses.lookup r.pageName = none) :
    (∃ m, handle router pageClasses req = Except.error m)
      ∧ (∃ m, (dispatchWithBoundary router pageClasses req resp).1.errorCalls
          = [ErrorSink.responseNotSentError m])
      ∧ (dispatchWithBoundary router pageClasses req resp).2 = none := by
  obtain herr | ⟨r, hr, hmiss⟩ := hfatal
  · refine ⟨⟨"Unable to route request, router returned null", ?_⟩,
      ⟨"Unable to route request, router returned null", ?_⟩, ?_⟩ <;>
      simp [handle, dispatchWithBoundary, handleError, herr, hsent, hcalls]
  · refine ⟨⟨"Unable to route request, page " ++ r.pageName ++ " doesn't exist", ?_⟩,
      ⟨"Unable to route request, page " ++ r.pageName ++ " doesn't exist", ?_⟩, ?_⟩ <;>
      simp [handle, dispatchWithBoundary, handleError, hr, hmiss, hsent, hcalls]

/-- C2 witness: a router that matches nothing, on a fresh response,
produces exactly one `responseNotSentError` call. -/
theorem fatal_routing_error_not_sent_witness :
    (∃ m, (dispatchWithBoundary (fun _ => none) [] sampleReq Response.fresh).1.errorCalls
        = [ErrorSink.responseNotSentError m])
      ∧ (dispatchWithBoundary (fun _ => none) [] sampleReq Response.fresh).2 = none :=
  ⟨(fatal_routing_error_not_sent (fun _ => none) [] sampleReq Response.fresh rfl rfl
      (Or.inl rfl)).2.1,
    (fatal_routing_error_not_sent (fun _ => none) [] sampleReq Response.fresh rfl rfl
      (Or.inl rfl)).2.2⟩

/-- C3: every value `v` with which `hydrate()` rejects reaches the
error-handling path as an `Error`: an `Error` instance passes through
unchanged, a string rejection `s` yields an `Error` whose message includes
`s`, and any other value is wrapped in an `Error` with a descriptive
message; the final render pass never runs after a rejection. -/
theorem hydration_rejection_normalized (v : JSValue) (dep : PageDep) (store : Store)
    (rr : RenderResult) (name : String) (cookies : List String) (resp : Response)
    (t : List Event) (r : Response)
    (hrej : store.hydrateResult = Except.error v)
    (hrun : handleRenderResult (some dep) (some store) rr name cookies resp
      = Except.ok (t, r)) :
    (Event.errorHandled (ensureError v).message ∈ t)
      ∧ (∀ s, Event.finalRender s ∉ t)
      ∧ (∀ m, v = JSValue.jsError m → ensureError v = { message := m })
      ∧ (∀ s, v = JSValue.jsString s →
          ∃ pre post, (ensureError v).message = pre ++ s ++ post)
      ∧ (∀ c, v = JSValue.jsOther c → (ensureError v).message
          = "Error when resolving store promise! Unable to convert reject arg: " ++ c) := by
  simp [handleRenderResult, hrej, handlePromiseError] at hrun
  obtain ⟨ht, -⟩ := hrun
  subst ht
  refine ⟨?_, ?_, ?_, ?_, ?_⟩
  · by_cases hpre : store.shouldRenderBeforeServerHydration <;> simp [hpre]
  · intro s
    by_cases hpre : store.shouldRenderBeforeServerHydration <;> simp [hpre]
  · rintro m rfl; rfl
  · rintro s rfl
    exact ⟨"", "", by simp [ensureError]⟩
  · rintro c rfl; rfl

/-- C3 witness: rejection with the string `"boom"` puts an
`errorHandled` event with message `"boom"` (which includes `"boom"`) on
the trace, with no final render event, on a concrete run. -/
theorem hydration_rejection_normalized_witness :
    (Event.errorHandled "boom"
        ∈ [Event.startRender, Event.discoveryRender, Event.endRender, Event.hydrateCalled,
            Event.errorHandled "boom"])
      ∧ (Event.finalRender none
          ∉ [Event.startRender, Event.discoveryRender, Event.endRender, Event.hydrateCalled,
              Event.errorHandled "boom"])
      ∧ (∃ pre post, (ensureError (JSValue.jsString "boom")).message = pre ++ "boom" ++ post) := by
  have h := hydration_rejection_normalized (JSValue.jsString "boom") { name := "dep" }
    { shouldRenderBeforeServerHydration := true,
      hydrateResult := Except.error (JSValue.jsString "boom") }
    sampleRenderResult "cmp" [] Response.fresh
    [Event.startRender, Event.discoveryRender, Event.endRender, Event.hydrateCalled,
      Event.errorHandled "boom"]
    (handleError { message := "boom" } Response.fresh)
    rfl (by simp [handleRenderResult, handlePromiseError, ensureError])
  exact ⟨h.1, h.2.1 none, h.2.2.2.1 "boom" rfl⟩

/-- C7: when the page's `createStore` returns `null` the coordinator skips
the discovery render and the hydration step entirely and goes straight to
the final render with a `null` state snapshot; and with a store that does
not request a pre-hydration render pass, the discovery render does not run
either. -/
theorem no_store_skips_discovery_and_hydration (dep : PageDep) (rr : RenderResult)
    (name : String) (cookies : List String) (resp : Response) (t t2 : List Event)
    (r r2 : Response) (s : Store) (d : String) :
    (handleRenderResult (some dep) none rr name cookies resp = Except.ok (t, r) →
        Event.discoveryRender ∉ t ∧ Event.hydrateCalled ∉ t
          ∧ Event.finalRender none ∈ t)
      ∧ (s.shouldRenderBeforeServerHydration = false → s.hydrateResult = Except.ok d →
          handleRenderResult (some dep) (some s) rr name cookies resp = Except.ok (t2, r2) →
            Event.discoveryRender ∉ t2) := by
  constructor
  · intro hrun
    simp [handleRenderResult, storeResolve] at hrun
    obtain ⟨ht, -⟩ := hrun
    subst ht
    simp
  · intro hpre hok hrun
    simp [handleRenderResult, storeResolve, hpre, hok] at hrun
    obtain ⟨ht, -⟩ := hrun
    subst ht
    simp

/-- C7 witness: a concrete run without a store produces the trace
`[finalRender none, responseEnd]`, which contains no discovery render, no
hydrate call, and a final render with the null snapshot. -/
theorem no_store_skips_discovery_and_hydration_witness :
    Event.discoveryRender ∉ ([Event.finalRender none, Event.responseEnd] : List Event)
      ∧ Event.hydrateCalled ∉ ([Event.finalRender none, Event.responseEnd] : List Event)
      ∧ Event.finalRender none ∈ ([Event.finalRender none, Event.responseEnd] : List Event) :=
  (no_store_skips_discovery_and_hydration { name := "dep" } sampleRenderResult "cmp" []
      Response.fresh [Event.finalRender none, Event.responseEnd] [] _ Response.fresh
      { shouldRenderBeforeServerHydration := false, hydrateResult := Except.ok "d" } "d").1
    (by rfl)

/-- C5: on receiving new props, if the shallow-comparison predicate finds
the previous and next connected prop sets equal, the wrapper changes
nothing — no unsubscribe, no re-subscription, even though the next props
object may be a different object; if it finds them unequal, every store
subscription owned by the consumer is removed
(`this.getReduxStore().unsubscribe(this)` leaves the consumer with zero
store subscriptions) and the component's `subscribeQueries` declaration is
re-run with the next connected props. -/
theorem receive_props_resubscription_policy
    (sq : List (String × Nat) → ConsumerState → ConsumerState) (st : ConsumerState)
    (cur next : List (String × Nat)) (reactState : Nat) :
    (isEqualShallow (connectedProps cur reactState) (connectedProps next reactState) = true →
        componentWillReceiveProps sq st cur next reactState = st)
      ∧ (isEqualShallow (connectedProps cur reactState) (connectedProps next reactState)
            = false →
          componentWillReceiveProps sq st cur next reactState
              = sq (connectedProps next reactState) st.storeUnsubscribeAll
            ∧ st.storeUnsubscribeAll.storeSubs = []) := by
  constructor
  · intro heq
    simp [componentWillReceiveProps, defaultShouldSubcriptionsUpdate, heq]
  · intro hne
    refine ⟨?_, rfl⟩
    simp [componentWillReceiveProps, defaultShouldSubcriptionsUpdate, hne]

/-- C5 witness: a referentially new but shallow-equal props object leaves
the wrapper state untouched, while a changed props object removes the old
store subscriptions and re-runs the sample `subscribeQueries`
declaration. -/
theorem receive_props_resubscription_policy_witness :
    componentWillReceiveProps sampleSubscribeQueries sampleConsumer [("a", 1), ("b", 2)]
        [("b", 2), ("a", 1)] 5 = sampleConsumer
      ∧ componentWillReceiveProps sampleSubscribeQueries sampleConsumer [("a", 1)] [("a", 2)] 5
          = sampleSubscribeQueries (connectedProps [("a", 2)] 5)
              sampleConsumer.storeUnsubscribeAll :=
  ⟨(receive_props_resubscription_policy sampleSubscribeQueries sampleConsumer
        [("a", 1), ("b", 2)] [("b", 2), ("a", 1)] 5).1 (by decide),
    ((receive_props_resubscription_policy sampleSubscribeQueries sampleConsumer
        [("a", 1)] [("a", 2)] 5).2 (by decide)).1⟩

/-- Looking up the key just set by `setHeader` yields the new value. -/
theorem lookup_setHeader_self (hs : List (String × String)) (k v : String) :
    (setHeader hs k v).lookup k = some v := by
  induction hs with
  | nil => simp [setHeader]
  | cons p rest ih =>
    obtain ⟨k2, v2⟩ := p
    by_cases h : k2 = k
    · subst h; simp [setHeader]
    · have hne : (k == k2) = false := by
        rw [beq_eq_false_iff_ne]
        exact Ne.symm h
      simp [setHeader, h, List.lookup, hne, ih]

/-- `setHeader` leaves lookups of other keys unchanged. -/
theorem lookup_setHeader_ne (hs : List (String × String)) (k k2 v : String) (h : k ≠ k2) :
    (setHeader hs k2 v).lookup k = hs.lookup k := by
  have hne : (k == k2) = false := by
    rw [beq_eq_false_iff_ne]
    exact h
  induction hs with
  | nil => simp [setHeader, List.lookup, hne]
  | cons p rest ih =>
    obtain ⟨k3, v3⟩ := p
    by_cases h3 : k3 = k2
    · subst h3; simp [setHeader, List.lookup, hne]
    · simp [setHeader, h3, List.lookup, ih]

/-- Folding `setHeader` over pairs none of which uses key `k` leaves the
lookup of `k` unchanged. -/
theorem lookup_foldl_setHeader (pairs : List (String × String)) (hs : List (String × String))
    (k : String) (h : ∀ kv ∈ pairs, kv.1 ≠ k) :
    (pairs.foldl (fun hs2 (kv : String × String) => setHeader hs2 kv.1 kv.2) hs).lookup k
      = hs.lookup k := by
  induction pairs generalizing hs with
  | nil => rfl
  | cons p rest ih =>
    simp only [List.foldl_cons]
    rw [ih _ (fun kv hkv => h kv (List.mem_cons_of_mem p hkv))]
    exact lookup_setHeader_ne hs k p.1 p.2 (Ne.symm (h p (List.mem_cons_self p rest)))

/-- The response assembled by `storeResolve`: its body is the rendered
content, and — provided the render result's own header collection carries
no `Content-Length`/`Content-Type` entry — its `Content-Length` header is
the UTF-8 byte length of that content and its `Content-Type` header is
`text/html;charset=UTF-8`. -/
theorem storeResolve_headers (snapshot? : Option SegmentState) (rr : RenderResult)
    (cookies : List String) (resp : Response)
    (hclash : ∀ kv ∈ rr.httpHeaders, kv.1 ≠ "Content-Length" ∧ kv.1 ≠ "Content-Type") :
    (storeResolve snapshot? rr cookies resp).2.body = some (rr.render snapshot?)
      ∧ (storeResolve snapshot? rr cookies resp).2.headers.lookup "Content-Length"
          = some (toString (rr.render snapshot?).utf8ByteSize)
      ∧ (storeResolve snapshot? rr cookies resp).2.headers.lookup "Content-Type"
          = some "text/html;charset=UTF-8" := by
  refine ⟨by simp [storeResolve], ?_, ?_⟩ <;>
  · simp only [storeResolve]
    by_cases hc : cookies.length > 0 <;>
      simp [hc, lookup_setHeader_ne, lookup_setHeader_self,
        lookup_foldl_setHeader _ _ _ (fun kv hkv => (hclash kv hkv).1),
        lookup_foldl_setHeader _ _ _ (fun kv hkv => (hclash kv hkv).2)]

/-- C6 counterexample: the claim states that every successfully rendered
response carries a `Content-Length` equal to the UTF-8 byte length of the
body.  A render result whose own header collection contains
`Content-Length: 999` overrides the computed value, because the
dispatcher applies the render result's headers after setting its own: for
body `"hi"` (2 UTF-8 bytes) the response leaves with `Content-Length:
999`. -/
theorem content_length_counterexample :
    (handleRenderResult (some { name := "d" }) none clashRenderResult "c" []
          Response.fresh).toOption.map
        (fun p => (p.2.headers.lookup "Content-Length", p.2.body))
      = some (some "999", some "hi")
      ∧ toString (("hi" : String).utf8ByteSize) = "2"
      ∧ ("999" : String) ≠ "2" := by
  refine ⟨rfl, rfl, by decide⟩

/-- C6 (amended): for every successfully rendered response whose render
result's own header collection contains no `Content-Length` or
`Content-Type` entry, the response's `Content-Length` header equals the
UTF-8 byte length of the final rendered body and its `Content-Type`
header is `text/html;charset=UTF-8`. -/
theorem content_headers_amended (dep : PageDep) (store? : Option Store) (rr : RenderResult)
    (name : String) (cookies : List String) (resp : Response) (t : List Event) (r : Response)
    (hclash : ∀ kv ∈ rr.httpHeaders, kv.1 ≠ "Content-Length" ∧ kv.1 ≠ "Content-Type")
    (hok : ∀ s, store? = some s → ∃ d, s.hydrateResult = Except.ok d)
    (hrun : handleRenderResult (some dep) store? rr name cookies resp = Except.ok (t, r)) :
    ∃ body, r.body = some body
      ∧ r.headers.lookup "Content-Length" = some (toString body.utf8ByteSize)
      ∧ r.headers.lookup "Content-Type" = some "text/html;charset=UTF-8" := by
  match store? with
  | none =>
    simp only [handleRenderResult, Except.ok.injEq] at hrun
    have hr : r = (storeResolve none rr cookies resp).2 := by rw [hrun]
    subst hr
    exact ⟨rr.render none, storeResolve_headers none rr cookies resp hclash⟩
  | some s =>
    obtain ⟨d, hd⟩ := hok s rfl
    simp [handleRenderResult, hd] at hrun
    obtain ⟨-, hr⟩ := hrun
    subst hr
    exact ⟨rr.render (some (SegmentState.ready d)),
      storeResolve_headers (some (SegmentState.ready d)) rr cookies resp hclash⟩

/-- C6 witness: a concrete successful run with no page-supplied headers
yields a body of 15 UTF-8 bytes with `Content-Length: 15` and the HTML
content type. -/
theorem content_headers_amended_witness :
    ∃ body : String,
      (storeResolve none sampleRenderResult [] Response.fresh).2.body = some body
        ∧ (storeResolve none sampleRenderResult [] Response.fresh).2.headers.lookup
            "Content-Length" = some (toString body.utf8ByteSize)
        ∧ (storeResolve none sampleRenderResult [] Response.fresh).2.headers.lookup
            "Content-Type" = some "text/html;charset=UTF-8" :=
  content_headers_amended { name := "d" } none sampleRenderResult "c" [] Response.fresh
    [Event.finalRender none, Event.responseEnd]
    (storeResolve none sampleRenderResult [] Response.fresh).2
    (by simp [sampleRenderResult]) (by simp) rfl

/-- An index where a list lookup succeeds is within bounds. -/
theorem getElem?_some_lt {α : Type} (l : List α) (i : Nat) (a : α) (h : l[i]? = some a) :
    i < l.length := by
  by_contra hc
  push_neg at hc
  rw [List.getElem?_eq_none hc] at h
  exact Option.noConfusion h

/-- C4: for a store that requests a pre-hydration render pass and whose
hydration succeeds, the coordinator's trace puts every discovery render
strictly before the `hydrate()` call, and the resolution of `hydrate()`
strictly before the `_getState()` snapshot read; both events do occur, and
neither the snapshot read nor the final render ever observes a
still-loading state. -/
theorem render_hydrate_ordering (dep : PageDep) (store : Store) (rr : RenderResult)
    (name : String) (cookies : List String) (resp : Response) (d : String) (t : List Event)
    (r : Response)
    (hpre : store.shouldRenderBeforeServerHydration = true)
    (hok : store.hydrateResult = Except.ok d)
    (hrun : handleRenderResult (some dep) (some store) rr name cookies resp
      = Except.ok (t, r)) :
    (∃ i : Nat, t[i]? = some Event.discoveryRender)
      ∧ (∃ j : Nat, t[j]? = some Event.hydrateCalled)
      ∧ (∀ i j : Nat, t[i]? = some Event.discoveryRender
          → t[j]? = some Event.hydrateCalled → i < j)
      ∧ (∀ (i j : Nat) (s : SegmentState), t[i]? = some Event.hydrateResolved
          → t[j]? = some (Event.stateRead s) → i < j)
      ∧ (∀ (i : Nat) (s : SegmentState), t[i]? = some (Event.stateRead s)
          → s ≠ SegmentState.loading)
      ∧ (∀ (i : Nat) (s : SegmentState), t[i]? = some (Event.finalRender (some s))
          → s ≠ SegmentState.loading) := by
  simp [handleRenderResult, hok, hpre, storeResolve] at hrun
  obtain ⟨ht, -⟩ := hrun
  subst ht
  refine ⟨⟨1, rfl⟩, ⟨3, rfl⟩, ?_, ?_, ?_, ?_⟩
  · intro i j hi hj
    have hi10 : i < 10 := by simpa using getElem?_some_lt _ _ _ hi
    have hj10 : j < 10 := by simpa using getElem?_some_lt _ _ _ hj
    interval_cases i <;> interval_cases j <;> simp_all
  · intro i j s hi hj
    have hi10 : i < 10 := by simpa using getElem?_some_lt _ _ _ hi
    have hj10 : j < 10 := by simpa using getElem?_some_lt _ _ _ hj
    interval_cases i <;> interval_cases j <;> simp_all
  · intro i s hi
    have hi10 : i < 10 := by simpa using getElem?_some_lt _ _ _ hi
    interval_cases i <;> simp_all <;> (subst hi; simp)
  · intro i s hi
    have hi10 : i < 10 := by simpa using getElem?_some_lt _ _ _ hi
    interval_cases i <;> simp_all <;> (subst hi; simp)

/-- C4 witness: on a concrete run the discovery render sits at index 1,
the hydrate call at index 3, so the discovery render precedes the hydrate
call. -/
theorem render_hydrate_ordering_witness : (1 : Nat) < 3 :=
  (render_hydrate_ordering { name := "d" }
      { shouldRenderBeforeServerHydration := true, hydrateResult := Except.ok "data" }
      sampleRenderResult "c" [] Response.fresh "data"
      [Event.startRender, Event.discoveryRender, Event.endRender, Event.hydrateCalled,
        Event.hydrateResolved, Event.stateRead (SegmentState.ready "data"), Event.startRender,
        Event.finalRender (some (SegmentState.ready "data")), Event.endRender, Event.responseEnd]
      _ rfl rfl (by rfl)).2.2.1 1 3 rfl rfl

/-- The invocation trace starting at position `i` matches the middleware
list itself: whatever id sits at position `k` of the trace is the id of
the middleware at position `i + k` of the list. -/
theorem runMiddleware_trace_in_order (ms : List Middleware) (req : HttpRequest) :
    ∀ (n i k : Nat) (x : Nat), ms.length - i ≤ n →
      (runMiddleware ms req i)[k]? = some x → (ms.map Middleware.id)[i + k]? = some x := by
  intro n
  induction n with
  | zero =>
    intro i k x hn h
    have hge : ¬ i < ms.length := by omega
    rw [runMiddleware] at h
    simp [hge] at h
  | succ n ih =>
    intro i k x hn h
    by_cases hlt : i < ms.length
    · rw [runMiddleware] at h
      simp only [hlt, dif_pos] at h
      match k with
      | 0 =>
        simp only [List.getElem?_cons_zero, Option.some.injEq] at h
        subst h
        simp [List.getElem?_map, List.getElem?_eq_getElem hlt]
      | k + 1 =>
        simp only [List.getElem?_cons_succ] at h
        by_cases hp : (ms.get ⟨i, hlt⟩).proceeds req
        · rw [if_pos hp] at h
          have := ih (i + 1) k x (by omega) h
          simpa [Nat.add_assoc, Nat.add_comm 1 k] using this
        · rw [if_neg hp] at h
          simp at h
    · rw [runMiddleware] at h
      simp [hlt] at h

/-- When the middleware at trace position `k` does not call `proceed`, it
is the last one invoked: the trace stops right after it. -/
theorem runMiddleware_halts (ms : List Middleware) (req : HttpRequest) :
    ∀ (n i k : Nat), ms.length - i ≤ n →
      ∀ hk : i + k < ms.length, (ms.get ⟨i + k, hk⟩).proceeds req = false →
        k < (runMiddleware ms req i).length → (runMiddleware ms req i).length = k + 1 := by
  intro n
  induction n with
  | zero =>
    intro i k hn hk
    omega
  | succ n ih =>
    intro i k hn hk hp hklen
    have hlt : i < ms.length := by omega
    rw [runMiddleware] at hklen ⊢
    simp only [hlt, dif_pos] at hklen ⊢
    match k with
    | 0 =>
      have : (ms.get ⟨i, hlt⟩).proceeds req = false := by
        simpa using hp
      rw [this]
      simp
    | k + 1 =>
      simp only [List.length_cons] at hklen
      by_cases hpi : (ms.get ⟨i, hlt⟩).proceeds req
      · rw [if_pos hpi] at hklen ⊢
        have hk2 : (i + 1) + k < ms.length := by omega
        have hp2 : (ms.get ⟨(i + 1) + k, hk2⟩).proceeds req = false := by
          have he : (i + 1) + k = i + (k + 1) := by omega
          simp only [he]
          exact hp
        have := ih (i + 1) k (by omega) hk2 hp2 (by omega)
        simp [this]
      · rw [if_neg hpi] at hklen
        simp at hklen

/-- When an invoked middleware calls `proceed` and a next middleware
exists, that next middleware is invoked too. -/
theorem runMiddleware_proceed_next (ms : List Middleware) (req : HttpRequest) :
    ∀ (n i k : Nat), ms.length - i ≤ n →
      ∀ hk : i + k < ms.length, (ms.get ⟨i + k, hk⟩).proceeds req = true →
        k < (runMiddleware ms req i).length → i + k + 1 < ms.length →
          k + 1 < (runMiddleware ms req i).length := by
  intro n
  induction n with
  | zero =>
    intro i k hn hk
    omega
  | succ n ih =>
    intro i k hn hk hp hklen hnext
    have hlt : i < ms.length := by omega
    rw [runMiddleware] at hklen ⊢
    simp only [hlt, dif_pos] at hklen ⊢
    match k with
    | 0 =>
      have hpi : (ms.get ⟨i, hlt⟩).proceeds req = true := by
        simpa using hp
      rw [hpi]
      simp only [if_pos]
      have hlt2 : i + 1 < ms.length := by omega
      rw [runMiddleware]
      simp [hlt2]
    | k + 1 =>
      simp only [List.length_cons] at hklen
      by_cases hpi : (ms.get ⟨i, hlt⟩).proceeds req
      · rw [if_pos hpi] at hklen ⊢
        have hk2 : (i + 1) + k < ms.length := by omega
        have hp2 : (ms.get ⟨(i + 1) + k, hk2⟩).proceeds req = true := by
          have he : (i + 1) + k = i + (k + 1) := by omega
          simp only [he]
          exact hp
        have := ih (i + 1) k (by omega) hk2 hp2 (by omega) (by omega)
        simpa using this
      · rw [if_neg hpi] at hklen
        simp at hklen

/-- C8: the middleware executor invokes handlers in list order — the id at
position `k` of the invocation trace is the id of the list's `k`-th
handler; a handler that does not call `proceed` is the last handler
invoked (no later handler runs); a handler that calls `proceed` hands
control to exactly the next handler in the list; and `Application.start`
appends the framework's own terminal handler as the last element of the
chain. -/
theorem middleware_chain_execution (ms : List Middleware) (req : HttpRequest)
    (compilerMws : List Middleware) (soyaHandle : Middleware) :
    (∀ k x : Nat, (runMiddleware ms req 0)[k]? = some x → (ms.map Middleware.id)[k]? = some x)
      ∧ (∀ (k : Nat) (hk : k < ms.length), (ms.get ⟨k, hk⟩).proceeds req = false →
          k < (runMiddleware ms req 0).length → (runMiddleware ms req 0).length = k + 1)
      ∧ (∀ (k : Nat) (hk : k < ms.length), (ms.get ⟨k, hk⟩).proceeds req = true →
          k < (runMiddleware ms req 0).length → k + 1 < ms.length →
            k + 1 < (runMiddleware ms req 0).length)
      ∧ (startMiddlewares compilerMws soyaHandle).getLast? = some soyaHandle := by
  refine ⟨?_, ?_, ?_, ?_⟩
  · intro k x h
    simpa using runMiddleware_trace_in_order ms req ms.length 0 k x (by omega) h
  · intro k hk hp hklen
    exact runMiddleware_halts ms req ms.length 0 k (by omega) (by simpa using hk)
      (by simpa using hp) hklen
  · intro k hk hp hklen hnext
    exact runMiddleware_proceed_next ms req ms.length 0 k (by omega) (by simpa using hk)
      (by simpa using hp) hklen (by simpa using hnext)
  · simp [startMiddlewares]

/-- C8 witness: in the chain `[proceeding, halting, proceeding]` the trace
is `[1, 2]` — the first id matches the list, the halting handler at
position 1 ends the trace with length 2, and the terminal handler is the
last element after `start` appends it. -/
theorem middleware_chain_execution_witness :
    ((([mwProceeds, mwHalts, mwProceeds].map Middleware.id))[0]? = some 1)
      ∧ (runMiddleware [mwProceeds, mwHalts, mwProceeds] sampleReq 0).length = 2
      ∧ (startMiddlewares [mwProceeds] mwHalts).getLast? = some mwHalts := by
  have h := middleware_chain_execution [mwProceeds, mwHalts, mwProceeds] sampleReq
    [mwProceeds] mwHalts
  refine ⟨h.1 0 1 ?_, h.2.1 1 (by simp) ?_ ?_, h.2.2.2⟩
  · rw [runMiddleware]
    simp [mwProceeds]
  · simp [mwHalts]
  · rw [runMiddleware, runMiddleware]
    simp [mwProceeds, mwHalts]

end Soya
